import Mathlib

/-!
Verification of the Lightning AI execution bridge
(`src/backend/scripts/lightning_executor.py`).

The Python program is shallowly embedded: each external effect
(SDK calls, subprocess invocations, the POSIX alarm) is an oracle value
carried by an environment record, and the orchestrator is a pure Lean
function of that environment, faithful to the source's control flow.
Strings are Lean `String`s (sequences of code points, matching Python
`str` slicing and membership for the ASCII texts involved); the
studio-name derivation is modelled over lists of code points.
-/

namespace LightningExec

/-- Outcome of one guarded external operation: normal completion,
the guard's TimeoutError, or any other exception (carrying `str(e)`). -/
inductive OpOutcome (α : Type) where
  | ok (val : α)
  | timeout
  | exn (msg : String)
deriving Repr, DecidableEq

/-- State of the process-wide SIGALRM machinery used by `run_with_timeout`
(source lines 24-44): whether the handler is installed and whether an
alarm is pending. -/
structure SigState where
  handlerInstalled : Bool
  alarmPending : Option Nat
deriving Repr, DecidableEq

/-- Model of `run_with_timeout` (source lines 31-44): install the SIGALRM
handler, arm the alarm, run the wrapped operation, and on each of the
three exit paths (`return result`, `except TimeoutError`,
`except Exception`) call `signal.alarm(0)` before leaving. -/
def run_with_timeout {α : Type} (s0 : SigState) (op : OpOutcome α)
    (timeout_seconds : Nat) : OpOutcome α × SigState :=
  let s1 : SigState := { s0 with handlerInstalled := true }
  let s2 : SigState := { s1 with alarmPending := some timeout_seconds }
  match op with
  | .ok v => (.ok v, { s2 with alarmPending := none })
  | .timeout => (.timeout, { s2 with alarmPending := none })
  | .exn m => (.exn m, { s2 with alarmPending := none })

/-! ## Studio-name derivation (source lines 176-178), over code points

`repo_name = repo_url.rstrip('/').split('/')[-1].replace('.git', '')`
`studio_name = f"{project_name}-{repo_name}"[:50]`
`studio_name = studio_name.replace(' ', '-').lower()`

Code points: `/` = 47, `.git` = [46,103,105,116], space = 32,
hyphen = 45, `A`-`Z` = 65-90. -/

/-- Python `rstrip('/')`: drop trailing slashes. -/
def rstripSlash (s : List Nat) : List Nat :=
  (s.reverse.dropWhile (fun c => c == 47)).reverse

/-- Python `split('/')`: split on slash, keeping empty segments. -/
def splitOnSlash : List Nat → List (List Nat)
  | [] => [[]]
  | c :: rest =>
    if c = 47 then [] :: splitOnSlash rest
    else
      match splitOnSlash rest with
      | [] => [[c]]
      | seg :: segs => (c :: seg) :: segs

/-- Python `[-1]` on the non-empty result of `split('/')`. -/
def lastSegment (s : List Nat) : List Nat :=
  (splitOnSlash s).getLastD []

/-- Python `replace('.git', '')`: remove occurrences of `.git`,
scanning left to right. -/
def removeDotGit : List Nat → List Nat
  | 46 :: 103 :: 105 :: 116 :: rest => removeDotGit rest
  | c :: rest => c :: removeDotGit rest
  | [] => []

/-- Python `replace(' ', '-')` on one code point. -/
def spaceToHyphen (c : Nat) : Nat := if c = 32 then 45 else c

/-- Python `str.lower()` on one code point, as CPython's full Unicode
lowercase mapping, which is not length-preserving: ASCII `A`-`Z` (65-90)
map to `a`-`z`; U+0130 (304, `İ`) is the single code point whose
lowercase mapping has two code points, `i` (105) followed by the
combining dot above U+0307 (775); U+212A (8490, the Kelvin sign) is the
single other code point whose lowercase mapping lands in ASCII, `k`
(107).  Every remaining code point maps one-to-one to a code point that
is neither a space nor an ASCII uppercase letter, so it is modelled by
itself; the length, space and ASCII-case properties proved below are
the same as for the real mapping. -/
def lowerCp (c : Nat) : List Nat :=
  if 65 ≤ c ∧ c ≤ 90 then [c + 32]
  else if c = 304 then [105, 775]
  else if c = 8490 then [107]
  else [c]

/-- The derived studio name (source lines 176-178): concatenate project
name, a hyphen and the repo name, truncate to 50 code points, replace
spaces by hyphens, lowercase.  Lowercasing happens after the truncation
and can lengthen the token, since U+0130 lowers to two code points. -/
def studio_name (projectName repoUrl : List Nat) : List Nat :=
  let repo_name := removeDotGit (lastSegment (rstripSlash repoUrl))
  ((((projectName ++ [45] ++ repo_name).take 50).map spaceToHyphen).map lowerCp).flatten

/-! ## Data model: command results and the execution report -/

/-- One entry of the report's `outputs` list (the per-command dicts built
throughout `execute_in_cloud` and `execute_via_cli`). -/
structure CommandResult where
  command : String
  stdout : String
  stderr : String
  exitCode : Int
  success : Bool
deriving Repr, DecidableEq

/-- The `results` dict: overall success flag, ordered command results,
human-readable error strings. -/
structure ExecResults where
  success : Bool
  outputs : List CommandResult
  errors : List String
deriving Repr, DecidableEq

/-! ## String helpers mirroring the Python operations used -/

/-- Whether `needle` occurs as a contiguous run in `hay`
(Python `needle in hay`). -/
def listContainsSub (needle : List Char) : List Char → Bool
  | [] => needle.isEmpty
  | c :: rest => needle.isPrefixOf (c :: rest) || listContainsSub needle rest

/-- Python `needle in hay` on strings. -/
def containsSub (hay needle : String) : Bool :=
  listContainsSub needle.data hay.data

/-- Python `str.lower()` (ASCII, per code point). -/
def strLower (s : String) : String :=
  String.mk (s.data.map Char.toLower)

/-- Python slice `s[:n]`: the first `n` code points. -/
def strTake (s : String) (n : Nat) : String :=
  String.mk (s.data.take n)

/-- Python truthiness of an optional environment variable
(`None` and the empty string are falsy). -/
def truthy : Option String → Bool
  | none => false
  | some s => s != ""

/-- Python `a or b` on two optional environment-variable strings. -/
def pyOrStr (a b : Option String) : Option String :=
  if truthy a then a else b

/-! ## Command classification and per-command budgets (lines 332-339) -/

/-- `'install' in cmd.lower() or 'download' in cmd.lower()`: the
installation/download heuristic used for both the 600 s budget and the
stop-on-failure policy. -/
def isInstallCmd (cmd : String) : Bool :=
  containsSub (strLower cmd) "install" || containsSub (strLower cmd) "download"

/-- `'test' in cmd.lower()`. -/
def isTestCmd (cmd : String) : Bool :=
  containsSub (strLower cmd) "test"

/-- Timeout budget selection (lines 332-339).  The code first assigns a
default of 300 and then always overwrites it in an if/elif/else chain, so
the default is never the final value. -/
def commandTimeout (cmd : String) : Nat :=
  if isInstallCmd cmd then 600
  else if isTestCmd cmd then 300
  else 180

/-- The remote invocation string (line 343):
`f"cd {repo_dir} && timeout {timeout_seconds} {cmd}"`. -/
def fullCmd (repoDir cmd : String) : String :=
  "cd " ++ repoDir ++ " && timeout " ++ Nat.repr (commandTimeout cmd) ++ " " ++ cmd

/-! ## Per-command pipeline step records (lines 341-392) -/

/-- Result recorded on command success (lines 350-356): stdout capped to
5000 code points, empty stderr, exit code 0. -/
def okRecord (cmd out : String) : CommandResult :=
  { command := cmd, stdout := strTake out 5000, stderr := "", exitCode := 0, success := true }

/-- Result recorded on a guard timeout (lines 361-372): empty stdout, the
timeout message as stderr, conventional exit code 124, failure. -/
def timeoutRecord (cmd : String) : CommandResult :=
  { command := cmd, stdout := ""
    stderr := "Command timed out after " ++ Nat.repr (commandTimeout cmd) ++ "s"
    exitCode := 124, success := false }

/-- Error string appended on a guard timeout (line 373). -/
def timeoutErrorMsg (cmd : String) : String :=
  "Command '" ++ cmd ++ "' Command timed out after " ++ Nat.repr (commandTimeout cmd) ++ "s"

/-- Result recorded on any other failure (lines 376-386): empty stdout,
stderr capped to 2000 code points, exit code 1, failure. -/
def exnRecord (cmd m : String) : CommandResult :=
  { command := cmd, stdout := "", stderr := strTake m 2000, exitCode := 1, success := false }

/-- Error string appended on any other failure (line 387). -/
def exnErrorMsg (cmd m : String) : String :=
  "Command '" ++ cmd ++ "' failed: " ++ strTake m 500

/-- Accumulator update for a successful command. -/
def okStepAcc (acc : ExecResults) (cmd out : String) : ExecResults :=
  { acc with outputs := acc.outputs ++ [okRecord cmd out] }

/-- Accumulator update for a timed-out command. -/
def timeoutStepAcc (acc : ExecResults) (cmd : String) : ExecResults :=
  { acc with outputs := acc.outputs ++ [timeoutRecord cmd]
             errors := acc.errors ++ [timeoutErrorMsg cmd] }

/-- Accumulator update for a command failing with a non-timeout error. -/
def exnStepAcc (acc : ExecResults) (cmd m : String) : ExecResults :=
  { acc with outputs := acc.outputs ++ [exnRecord cmd m]
             errors := acc.errors ++ [exnErrorMsg cmd m] }

/-! ## Environment of external effects for `execute_in_cloud` -/

/-- The three session-acquisition strategies (lines 189-223), in order. -/
inductive AcqStep where
  | connect
  | createWs
  | createPersonal
deriving Repr, DecidableEq

/-- Oracles for every external effect `execute_in_cloud` performs, plus
the caller-invisible environment variables. -/
structure Env where
  apiKey : Option String
  userId : Option String
  username : Option String
  /-- Outcome of `Studio(name=..., teamspace=..., user=...)` (line 192). -/
  connect : Except String Unit
  /-- Outcome of `Studio(..., create_ok=True)` in the teamspace (line 203). -/
  createWs : Except String Unit
  /-- Outcome of `Studio(name=..., create_ok=True)` without a teamspace (line 218). -/
  createPersonal : Except String Unit
  /-- Outcome of `studio.start()` under the 120 s guard (lines 250-269);
  success, timeout and failure all proceed, so this never alters the run. -/
  startO : OpOutcome String
  /-- Outcome of the responsiveness probe under the 30 s guard (lines 273-293). -/
  probeO : OpOutcome String
  /-- `int(time.time())` used for the per-run workspace path (line 297). -/
  now : Nat
  /-- Outcome of the pre-clean plus `git clone` under the 120 s guard (lines 299-326). -/
  cloneO : OpOutcome String
  /-- Outcome of `studio.run(full_cmd)` under its guard, as a function of
  the full command string and the guard budget (lines 341-348). -/
  cmdExec : String → Nat → OpOutcome String
  /-- Exception (if any) of the teardown workspace removal (lines 396-402); swallowed. -/
  cleanupExn : Option String
  /-- Exception (if any) of `studio.stop()` (lines 404-409); swallowed. -/
  stopExn : Option String

/-- Events observable from outside one run: which acquisition strategies
were tried, every `(full command, guard budget)` pair sent to the studio,
which caller commands were attempted, and whether teardown was reached. -/
structure Trace where
  acqSteps : List AcqStep
  cmdCalls : List (String × Nat)
  attempted : List String
  teardownAttempted : Bool
deriving Repr, DecidableEq

/-- Trace of a run that ended before the teardown block. -/
def noTeardownTrace (steps : List AcqStep) : Trace :=
  { acqSteps := steps, cmdCalls := [], attempted := [], teardownAttempted := false }

/-! ## The command pipeline (lines 329-392) -/

/-- The per-command loop.  On success and on timeout the loop continues;
on a non-timeout failure of an installation/download-class command it
clears the success flag and stops (lines 389-392); on any other
non-timeout failure it continues.  Returns the accumulated results, the
`(full command, guard budget)` calls issued, and the commands attempted. -/
def runCommands (env : Env) (repoDir : String) :
    List String → ExecResults → ExecResults × List (String × Nat) × List String
  | [], acc => (acc, [], [])
  | cmd :: rest, acc =>
    let t := commandTimeout cmd
    let full := fullCmd repoDir cmd
    match env.cmdExec full (t + 30) with
    | .ok out =>
      let r := runCommands env repoDir rest (okStepAcc acc cmd out)
      (r.1, (full, t + 30) :: r.2.1, cmd :: r.2.2)
    | .timeout =>
      let r := runCommands env repoDir rest (timeoutStepAcc acc cmd)
      (r.1, (full, t + 30) :: r.2.1, cmd :: r.2.2)
    | .exn m =>
      if isInstallCmd cmd then
        ({ exnStepAcc acc cmd m with success := false }, [(full, t + 30)], [cmd])
      else
        let r := runCommands env repoDir rest (exnStepAcc acc cmd m)
        (r.1, (full, t + 30) :: r.2.1, cmd :: r.2.2)

/-! ## Result aggregation (lines 413-419) -/

/-- The promotion rule: if there are outputs and the flag is false but
some recorded result both succeeded and has `'install'` in its command
text (note: `'download'` is not consulted here), flip the flag to true
and append the explanatory note. -/
def promote (r : ExecResults) : ExecResults :=
  if 0 < r.outputs.length ∧ r.success = false then
    if r.outputs.any (fun o => o.success && containsSub (strLower o.command) "install") then
      { r with success := true
               errors := r.errors ++ ["Note: Some commands failed but installation succeeded"] }
    else r
  else r

/-! ## The orchestrator `execute_in_cloud` (lines 121-449) -/

/-- Terminal report for a missing API key (lines 144-149). -/
def apiKeyMissingReport : ExecResults :=
  { success := false, outputs := []
    errors := ["LIGHTNING_API_KEY not set in environment"] }

/-- Terminal report for a missing user identifier (lines 153-162). -/
def userMissingReport : ExecResults :=
  { success := false, outputs := []
    errors := ["LIGHTNING_USERNAME or LIGHTNING_USER_ID must be set in environment",
               "The SDK needs a user parameter when creating Studios",
               "Get your username from: https://lightning.ai/ (check your profile URL)"] }

/-- Terminal report when all three acquisition strategies fail
(lines 225-243): the last failure reason, remediation guidance, and the
recognized environment keys. -/
def acquisitionFailureReport (lastError : String) : ExecResults :=
  { success := false, outputs := []
    errors := ["Lightning Studio creation failed: " ++ lastError,
               "",
               "TROUBLESHOOTING:",
               "1. Verify your Lightning AI account: https://lightning.ai/",
               "2. Get your credentials from Settings > API Keys",
               "3. For teamspace, get name from your teamspace URL",
               "4. Try creating a Studio manually first to verify access",
               "",
               "Required env vars:",
               "  LIGHTNING_API_KEY=<your-api-key>",
               "  LIGHTNING_USERNAME=<your-username>",
               "  LIGHTNING_TEAMSPACE=<teamspace-name> (optional)"] }

/-- The synthetic clone result (lines 308-314): stdout capped to 1000
code points. -/
def cloneRecord (repoUrl out : String) : CommandResult :=
  { command := "git clone " ++ repoUrl, stdout := strTake out 1000
    stderr := "", exitCode := 0, success := true }

/-- The per-run workspace path (line 297). -/
def repoDirOf (env : Env) : String :=
  "/teamspace/studios/this_studio/repo-" ++ Nat.repr env.now

/-- Everything after a successful acquisition: start (lines 246-269,
where success, timeout and failure all proceed), the responsiveness
probe (lines 271-293, both failure kinds return a terminal report
directly), clone (lines 295-326), the command pipeline, teardown
(lines 394-409, both steps best-effort with failures swallowed), and the
promotion rule (lines 413-419). -/
def afterAcquire (env : Env) (repoUrl : String) (commands : List String)
    (steps : List AcqStep) : ExecResults × Trace :=
  match env.probeO with
  | .timeout =>
    ({ success := false, outputs := []
       errors := ["Studio is not responsive (timeout)",
                  "Try again or check Lightning AI dashboard"] },
     noTeardownTrace steps)
  | .exn m =>
    ({ success := false, outputs := [], errors := ["Studio not responsive: " ++ m] },
     noTeardownTrace steps)
  | .ok _ =>
    let repoDir := repoDirOf env
    match env.cloneO with
    | .timeout =>
      ({ success := false, outputs := [], errors := ["Git clone timed out (>120s)"] },
       noTeardownTrace steps)
    | .exn m =>
      ({ success := false, outputs := [], errors := ["Git clone failed: " ++ m] },
       noTeardownTrace steps)
    | .ok cloneOut =>
      let acc : ExecResults :=
        { success := true, outputs := [cloneRecord repoUrl cloneOut], errors := [] }
      let r := runCommands env repoDir commands acc
      (promote r.1,
       { acqSteps := steps, cmdCalls := r.2.1, attempted := r.2.2, teardownAttempted := true })

/-- `execute_in_cloud` (lines 121-449): credential checks, the
acquisition cascade (connect, create-in-teamspace, create-personal,
first success wins, last failure reason retained), then `afterAcquire`.
The studio naming (lines 176-178) is modelled by `studio_name` and does
not affect control flow.  No operation modelled here raises past its
handler, so the outer `except` (lines 423-449) is modelled separately by
`sdkFailureFallback`. -/
def execute_in_cloud (env : Env) (repoUrl _projectName : String)
    (commands : List String) : ExecResults × Trace :=
  if !truthy env.apiKey then (apiKeyMissingReport, noTeardownTrace [])
  else if !truthy (pyOrStr env.username env.userId) then
    (userMissingReport, noTeardownTrace [])
  else
    match env.connect with
    | .ok _ => afterAcquire env repoUrl commands [AcqStep.connect]
    | .error _ =>
      match env.createWs with
      | .ok _ => afterAcquire env repoUrl commands [AcqStep.connect, AcqStep.createWs]
      | .error _ =>
        match env.createPersonal with
        | .ok _ =>
          afterAcquire env repoUrl commands
            [AcqStep.connect, AcqStep.createWs, AcqStep.createPersonal]
        | .error e3 =>
          (acquisitionFailureReport e3,
           noTeardownTrace [AcqStep.connect, AcqStep.createWs, AcqStep.createPersonal])

/-! ## The CLI fallback path `execute_via_cli` (lines 46-119) -/

/-- Outcome of one `subprocess.run` call: completion with a return code
and captured streams, `subprocess.TimeoutExpired`, or any other
exception. -/
inductive ProcOutcome where
  | ok (returncode : Int) (stdout stderr : String)
  | timeoutExpired
  | exn (msg : String)
deriving Repr, DecidableEq

/-- Oracles for the external effects of `execute_via_cli`. -/
structure CliEnv where
  /-- Outcome of `subprocess.run(['lightning', '--version'], ...)` (line 61). -/
  versionCheck : ProcOutcome
  /-- Exception (if any) while writing the temporary script (lines 77-79). -/
  writeExn : Option String
  /-- Outcome of `subprocess.run(['lightning', 'run', 'studio', ...])` (line 83). -/
  scriptRun : ProcOutcome
  /-- Exception (if any) of `os.remove(script_path)` (line 90). -/
  removeExn : Option String
deriving Repr, DecidableEq

/-- `execute_via_cli` (lines 46-119): check the CLI is available, write a
combined script cloning the repo and running all commands, run it under a
600 s timeout, and report a single aggregate result labelled
`all_commands`.  The captured stdout/stderr are recorded without
truncation.  `subprocess.TimeoutExpired` and other exceptions are turned
into error strings (lines 114-119). -/
def execute_via_cli (_repoUrl _projectName : String) (_commands : List String)
    (cli : CliEnv) : ExecResults :=
  match cli.versionCheck with
  | .timeoutExpired =>
    { success := false, outputs := [], errors := ["CLI execution timed out"] }
  | .exn m =>
    { success := false, outputs := [], errors := ["CLI execution error: " ++ m] }
  | .ok rc _ _ =>
    if rc != 0 then
      { success := false, outputs := [], errors := ["Lightning CLI not available"] }
    else
      match cli.writeExn with
      | some m =>
        { success := false, outputs := [], errors := ["CLI execution error: " ++ m] }
      | none =>
        match cli.scriptRun with
        | .timeoutExpired =>
          { success := false, outputs := [], errors := ["CLI execution timed out"] }
        | .exn m =>
          { success := false, outputs := [], errors := ["CLI execution error: " ++ m] }
        | .ok rc2 out err =>
          match cli.removeExn with
          | some m =>
            { success := false, outputs := [], errors := ["CLI execution error: " ++ m] }
          | none =>
            if rc2 = 0 then
              { success := true
                outputs := [{ command := "all_commands", stdout := out, stderr := err
                              exitCode := 0, success := true }]
                errors := [] }
            else
              { success := false
                outputs := [{ command := "all_commands", stdout := out, stderr := err
                              exitCode := rc2, success := false }]
                errors := ["CLI execution failed: " ++ err] }

/-- `os.environ.get('LIGHTNING_USE_CLI_FALLBACK', 'true').lower() == 'true'`
(line 438). -/
def fallbackEnabled (v : Option String) : Bool :=
  strLower (v.getD "true") == "true"

/-- The outer `except` of `execute_in_cloud` (lines 423-449), reached only
when an unanticipated exception escapes the primary path: clear the
success flag, append the SDK failure message, best-effort `studio.stop()`
(swallowed), then, when the fallback is enabled, run `execute_via_cli`;
if it succeeds its report replaces the primary one, otherwise its errors
are appended to the primary report. -/
def sdkFailureFallback (primary : ExecResults) (errMsg : String)
    (useCliVar : Option String) (repoUrl projectName : String)
    (commands : List String) (cli : CliEnv) : ExecResults :=
  let base : ExecResults :=
    { primary with success := false
                   errors := primary.errors ++ ["Lightning SDK execution failed: " ++ errMsg] }
  if fallbackEnabled useCliVar then
    let cliResults := execute_via_cli repoUrl projectName commands cli
    if cliResults.success then cliResults
    else { base with errors := base.errors ++ cliResults.errors }
  else base

/-! ## Helper lemmas -/

/-- A report whose flag is already true is untouched by the promotion rule. -/
theorem promote_of_success (r : ExecResults) (h : r.success = true) : promote r = r := by
  unfold promote
  rw [if_neg (by simp [h])]

/-- A report with no succeeded install-labelled output is untouched by the
promotion rule. -/
theorem promote_of_no_install (r : ExecResults)
    (h : r.outputs.any (fun o => o.success && containsSub (strLower o.command) "install") = false) :
    promote r = r := by
  unfold promote
  split_ifs with h1 h2
  · rw [h] at h2; exact absurd h2 (by simp)
  · rfl
  · rfl

/-- The promotion rule flips the flag and appends the note when the flag
is false and some recorded output succeeded with `install` in its text. -/
theorem promote_of_flip (r : ExecResults) (hs : r.success = false)
    (hany : r.outputs.any (fun o => o.success && containsSub (strLower o.command) "install") = true) :
    promote r = { r with
                  success := true,
                  errors := r.errors ++ ["Note: Some commands failed but installation succeeded"] } := by
  have hne : 0 < r.outputs.length := by
    rcases List.any_eq_true.mp hany with ⟨o, ho, _⟩
    exact List.length_pos.mpr (List.ne_nil_of_mem ho)
  unfold promote
  rw [if_pos ⟨hne, hs⟩, if_pos hany]

/-! ## Claim theorems -/

/-- Claim C5: the timeout guard returns the wrapped operation's result
when it completes, fails with the Timeout condition when the alarm fires,
propagates any other failure unchanged, and on all three exit paths
leaves no pending alarm. -/
theorem c5_timeout_guard {α : Type} (s0 : SigState) (op : OpOutcome α) (t : Nat) :
    (run_with_timeout s0 op t).1 = op
  ∧ (run_with_timeout s0 op t).2.alarmPending = none := by
  cases op <;> simp [run_with_timeout]

/-- `split('/')` always yields at least one segment. -/
theorem splitOnSlash_ne_nil (s : List Nat) : splitOnSlash s ≠ [] := by
  cases s with
  | nil => simp [splitOnSlash]
  | cons c rest =>
    simp only [splitOnSlash]
    split_ifs
    · simp
    · split <;> simp

/-- The default-carrying last element of a non-empty list is a member. -/
theorem getLastD_mem {α : Type} : ∀ (l : List α) (d : α), l ≠ [] → l.getLastD d ∈ l
  | [], _, h => absurd rfl h
  | [a], d, _ => by simp [List.getLastD]
  | a :: b :: rs, d, _ => by
    have ih := getLastD_mem (b :: rs) d (by simp)
    have he : (a :: b :: rs).getLastD d = (b :: rs).getLastD d := rfl
    rw [he]
    exact List.mem_cons_of_mem _ ih

/-- Every code point of every `split('/')` segment comes from the input. -/
theorem mem_of_mem_splitOnSlash :
    ∀ (s : List Nat) (seg : List Nat), seg ∈ splitOnSlash s → ∀ c ∈ seg, c ∈ s := by
  intro s
  induction s with
  | nil =>
    intro seg hseg c hc
    simp only [splitOnSlash, List.mem_singleton] at hseg
    subst hseg
    simp at hc
  | cons d rest ih =>
    intro seg hseg c hc
    simp only [splitOnSlash] at hseg
    by_cases hd : d = 47
    · rw [if_pos hd] at hseg
      rcases List.mem_cons.mp hseg with h | h
      · subst h; simp at hc
      · exact List.mem_cons_of_mem _ (ih seg h c hc)
    · rw [if_neg hd] at hseg
      split at hseg
      next hsp =>
        simp only [List.mem_singleton] at hseg
        subst hseg
        have hcd : c = d := by simpa using hc
        subst hcd
        exact List.mem_cons_self _ _
      next seg0 segs hsp =>
        rcases List.mem_cons.mp hseg with h | h
        · subst h
          rcases List.mem_cons.mp hc with h2 | h2
          · subst h2; exact List.mem_cons_self _ _
          · have hmem : seg0 ∈ splitOnSlash rest := by
              rw [hsp]; exact List.mem_cons_self _ _
            exact List.mem_cons_of_mem _ (ih seg0 hmem c h2)
        · have hmem : seg ∈ splitOnSlash rest := by
            rw [hsp]; exact List.mem_cons_of_mem _ h
          exact List.mem_cons_of_mem _ (ih seg hmem c hc)

/-- `rstrip('/')` only removes code points. -/
theorem mem_of_mem_rstripSlash (s : List Nat) (c : Nat) (h : c ∈ rstripSlash s) :
    c ∈ s := by
  unfold rstripSlash at h
  rw [List.mem_reverse] at h
  exact List.mem_reverse.mp ((List.dropWhile_sublist _).subset h)

/-- `split('/')[-1]` only keeps code points of the input. -/
theorem mem_of_mem_lastSegment (s : List Nat) (c : Nat) (h : c ∈ lastSegment s) :
    c ∈ s := by
  unfold lastSegment at h
  exact mem_of_mem_splitOnSlash s _ (getLastD_mem _ _ (splitOnSlash_ne_nil s)) c h

/-- `replace('.git', '')` only removes code points. -/
theorem mem_of_mem_removeDotGit (s : List Nat) (c : Nat) (h : c ∈ removeDotGit s) :
    c ∈ s := by
  induction s using removeDotGit.induct with
  | case1 rest ih =>
    simp only [removeDotGit] at h
    simp [ih h]
  | case2 d rest hne ih =>
    rw [removeDotGit.eq_2 d rest hne] at h
    rcases List.mem_cons.mp h with h1 | h1
    · simp [h1]
    · simp [ih h1]
  | case3 => simp [removeDotGit] at h

/-- Lowercasing one code point yields at most two code points. -/
theorem lowerCp_length_le (c : Nat) : (lowerCp c).length ≤ 2 := by
  unfold lowerCp
  split_ifs <;> simp

/-- Lowercasing any code point other than U+0130 yields one code point. -/
theorem lowerCp_length_eq_one (c : Nat) (h : c ≠ 304) : (lowerCp c).length = 1 := by
  unfold lowerCp
  split_ifs <;> simp_all

/-- Lowercasing at most doubles the number of code points. -/
theorem flatten_lowerCp_length_le (l : List Nat) :
    ((l.map lowerCp).flatten).length ≤ 2 * l.length := by
  induction l with
  | nil => simp
  | cons c rest ih =>
    simp only [List.map_cons, List.flatten_cons, List.length_append, List.length_cons]
    have := lowerCp_length_le c
    omega

/-- Without U+0130, lowercasing preserves the number of code points. -/
theorem flatten_lowerCp_length_eq (l : List Nat) (h : 304 ∉ l) :
    ((l.map lowerCp).flatten).length = l.length := by
  induction l with
  | nil => simp
  | cons c rest ih =>
    simp only [List.mem_cons, not_or] at h
    simp only [List.map_cons, List.flatten_cons, List.length_append, List.length_cons]
    rw [lowerCp_length_eq_one c (Ne.symm h.1), ih h.2]
    omega

/-- `replace(' ', '-')` never outputs a space. -/
theorem spaceToHyphen_ne_space (c : Nat) : spaceToHyphen c ≠ 32 := by
  unfold spaceToHyphen
  split_ifs <;> omega

/-- The studio name written without its let binding. -/
theorem studio_name_eq (projectName repoUrl : List Nat) :
    studio_name projectName repoUrl =
      ((((projectName ++ [45] ++ removeDotGit (lastSegment (rstripSlash repoUrl))).take 50).map
          spaceToHyphen).map lowerCp).flatten := rfl

/-- Claim C8 (amended): the derived studio name has at most 100 code
points in general — the pre-lowercase truncation keeps 50 code points
and lowercasing at most doubles them — and at most 50 whenever neither
input contains U+0130, the one code point whose lowercase mapping is two
code points; in every case it contains no space and no uppercase ASCII
letter. -/
theorem c8_studio_name_token (projectName repoUrl : List Nat) :
    (studio_name projectName repoUrl).length ≤ 100
  ∧ (304 ∉ projectName → 304 ∉ repoUrl →
      (studio_name projectName repoUrl).length ≤ 50)
  ∧ (∀ c ∈ studio_name projectName repoUrl, c ≠ 32)
  ∧ (∀ c ∈ studio_name projectName repoUrl, ¬(65 ≤ c ∧ c ≤ 90)) := by
  have hlen : (((projectName ++ [45] ++ removeDotGit (lastSegment (rstripSlash repoUrl))).take 50).map
      spaceToHyphen).length ≤ 50 := by
    simp only [List.length_map, List.length_take]
    exact Nat.min_le_left _ _
  refine ⟨?_, ?_, ?_, ?_⟩
  · rw [studio_name_eq]
    calc ((((projectName ++ [45] ++ removeDotGit (lastSegment (rstripSlash repoUrl))).take 50).map
            spaceToHyphen).map lowerCp).flatten.length
        ≤ 2 * (((projectName ++ [45] ++ removeDotGit (lastSegment (rstripSlash repoUrl))).take 50).map
            spaceToHyphen).length := flatten_lowerCp_length_le _
      _ ≤ 100 := by omega
  · intro hp hr
    have h304 : 304 ∉ ((projectName ++ [45] ++ removeDotGit (lastSegment (rstripSlash repoUrl))).take 50).map
        spaceToHyphen := by
      intro hmem
      rw [List.mem_map] at hmem
      obtain ⟨d, hd, heq⟩ := hmem
      have hd304 : d = 304 := by
        unfold spaceToHyphen at heq
        split_ifs at heq <;> omega
      subst hd304
      have hd2 := List.take_subset _ _ hd
      rcases List.mem_append.mp hd2 with h1 | h1
      · rcases List.mem_append.mp h1 with h2 | h2
        · exact hp h2
        · simp at h2
      · exact hr (mem_of_mem_rstripSlash _ _
          (mem_of_mem_lastSegment _ _ (mem_of_mem_removeDotGit _ _ h1)))
    rw [studio_name_eq]
    calc ((((projectName ++ [45] ++ removeDotGit (lastSegment (rstripSlash repoUrl))).take 50).map
            spaceToHyphen).map lowerCp).flatten.length
        = (((projectName ++ [45] ++ removeDotGit (lastSegment (rstripSlash repoUrl))).take 50).map
            spaceToHyphen).length := flatten_lowerCp_length_eq _ h304
      _ ≤ 50 := hlen
  · intro c hc
    simp only [studio_name, List.mem_flatten, List.mem_map] at hc
    obtain ⟨l0, ⟨a, ⟨e, _, rfl⟩, rfl⟩, hc0⟩ := hc
    have hne := spaceToHyphen_ne_space e
    unfold lowerCp at hc0
    split_ifs at hc0 <;> simp_all <;> omega
  · intro c hc
    simp only [studio_name, List.mem_flatten, List.mem_map] at hc
    obtain ⟨l0, ⟨a, ⟨e, _, rfl⟩, rfl⟩, hc0⟩ := hc
    unfold lowerCp at hc0
    split_ifs at hc0 <;> simp_all <;> omega

/-- A project name of sixty copies of U+0130 (`İ`). -/
def dottedIName : List Nat := List.replicate 60 304

/-- Counterexample for claim C8 as stated: the pre-lowercase truncation
keeps 50 `İ` code points, each of which lowers to two code points, so
the derived token has 100 code points — more than the claimed 50. -/
theorem c8_counterexample :
    (studio_name dottedIName []).length = 100
  ∧ 50 < (studio_name dottedIName []).length := by decide

/-- Concrete derivation for claim C8: project name `My A`, repo URL
`http://github.com/u/Repo.git`, token `my-a-repo`. -/
def nameW : List Nat := [77, 121, 32, 65]

/-- Repo URL `http://github.com/u/Repo.git` as code points. -/
def repoW : List Nat :=
  [104, 116, 116, 112, 58, 47, 47, 103, 105, 116, 104, 117, 98, 46, 99, 111, 109,
   47, 117, 47, 82, 101, 112, 111, 46, 103, 105, 116]

/-- Witness for claim C8 at a concrete project name and repo URL free of
U+0130. -/
theorem c8_witness :
    (studio_name nameW repoW).length ≤ 100
  ∧ 304 ∉ nameW
  ∧ 304 ∉ repoW
  ∧ (studio_name nameW repoW).length ≤ 50
  ∧ (109 ∈ studio_name nameW repoW)
  ∧ (109 : Nat) ≠ 32
  ∧ ¬(65 ≤ (109 : Nat) ∧ (109 : Nat) ≤ 90) :=
  ⟨(c8_studio_name_token nameW repoW).1, by decide, by decide,
   (c8_studio_name_token nameW repoW).2.1 (by decide) (by decide),
   by decide,
   (c8_studio_name_token nameW repoW).2.2.1 109 (by decide),
   (c8_studio_name_token nameW repoW).2.2.2 109 (by decide)⟩

/-- Claim C6: the pipeline issues exactly one guarded remote call per
attempted command, whose command string is
`cd <workspace> && timeout <budget> <command>` and whose guard budget is
the chosen budget plus the 30-second grace margin; the budget is 600 s
for install/download commands, 300 s for test commands, 180 s otherwise. -/
theorem c6_adaptive_budgets (env : Env) (repoDir : String) (cmds : List String)
    (acc : ExecResults) :
    (runCommands env repoDir cmds acc).2.1 =
      ((runCommands env repoDir cmds acc).2.2).map
        (fun cmd => (fullCmd repoDir cmd, commandTimeout cmd + 30))
  ∧ (∀ cmd : String, fullCmd repoDir cmd =
      "cd " ++ repoDir ++ " && timeout " ++ Nat.repr (commandTimeout cmd) ++ " " ++ cmd)
  ∧ (∀ cmd : String, commandTimeout cmd =
      if isInstallCmd cmd then 600 else if isTestCmd cmd then 300 else 180) := by
  refine ⟨?_, fun _ => rfl, fun _ => rfl⟩
  induction cmds generalizing acc with
  | nil => simp [runCommands]
  | cons cmd rest ih =>
    simp only [runCommands]
    cases h : env.cmdExec (fullCmd repoDir cmd) (commandTimeout cmd + 30) with
    | ok out => simpa using ih (okStepAcc acc cmd out)
    | timeout => simpa using ih (timeoutStepAcc acc cmd)
    | exn m =>
      by_cases hin : isInstallCmd cmd
      · simp [hin]
      · simpa [hin] using ih (exnStepAcc acc cmd m)

/-- Claim C3 (amended): the promotion rule flips a false flag to true and
appends the note exactly when some recorded output succeeded with
`install` (not `download`) in its command text; otherwise the report is
unchanged; the rule is idempotent. -/
theorem c3_promotion_rule (r : ExecResults) :
    (r.success = false →
      r.outputs.any (fun o => o.success && containsSub (strLower o.command) "install") = true →
      promote r = { r with
                    success := true,
                    errors := r.errors ++ ["Note: Some commands failed but installation succeeded"] })
  ∧ (r.success = true → promote r = r)
  ∧ (r.outputs.any (fun o => o.success && containsSub (strLower o.command) "install") = false →
      promote r = r)
  ∧ promote (promote r) = promote r := by
  refine ⟨promote_of_flip r, promote_of_success r, promote_of_no_install r, ?_⟩
  by_cases hs : r.success = true
  · rw [promote_of_success r hs, promote_of_success r hs]
  · have hs' : r.success = false := by simpa using hs
    by_cases hany : r.outputs.any
        (fun o => o.success && containsSub (strLower o.command) "install") = true
    · rw [promote_of_flip r hs' hany]
      exact promote_of_success _ rfl
    · have hany' : r.outputs.any
          (fun o => o.success && containsSub (strLower o.command) "install") = false := by
        simpa using hany
      rw [promote_of_no_install r hany', promote_of_no_install r hany']

/-- Report refuting claim C3 as stated: a succeeded `download`-class
result is present and the flag is false, yet the rule does not flip it,
because the code's promotion check looks only for `install`. -/
def promoteCounterReport : ExecResults :=
  { success := false
    outputs := [{ command := "download data", stdout := "", stderr := ""
                  exitCode := 0, success := true }]
    errors := [] }

/-- Counterexample for claim C3 as stated: the recorded result succeeded
and is installation/download-class, the flag is false, yet the promotion
rule leaves the report unchanged with the flag still false. -/
theorem c3_counterexample :
    promoteCounterReport.outputs.any
        (fun o => o.success && isInstallCmd o.command) = true
  ∧ promoteCounterReport.success = false
  ∧ promote promoteCounterReport = promoteCounterReport
  ∧ (promote promoteCounterReport).success = false := by decide

/-- Report exercising the flip branch of the promotion rule. -/
def promoteFlipReport : ExecResults :=
  { success := false
    outputs := [{ command := "pip install x", stdout := "", stderr := ""
                  exitCode := 0, success := true }]
    errors := [] }

/-- Witness for claim C3 at a concrete report. -/
theorem c3_witness :
    promote promoteFlipReport =
      { promoteFlipReport with
        success := true,
        errors := promoteFlipReport.errors ++
          ["Note: Some commands failed but installation succeeded"] } :=
  (c3_promotion_rule promoteFlipReport).1 rfl (by decide)

/-- The trace of `afterAcquire` always carries the acquisition steps it
was given, whatever the probe and clone outcomes. -/
theorem afterAcquire_acqSteps (env : Env) (repoUrl : String) (cmds : List String)
    (steps : List AcqStep) : (afterAcquire env repoUrl cmds steps).2.acqSteps = steps := by
  unfold afterAcquire
  cases env.probeO with
  | ok v => cases env.cloneO <;> simp [noTeardownTrace]
  | timeout => simp [noTeardownTrace]
  | exn m => simp [noTeardownTrace]

/-- Claim C2 (amended): a non-timeout failure of an install/download-class
command clears the success flag and stops the pipeline (no further
command is attempted); a timeout, a non-timeout failure of any other
command, or a success never stops it — the next command is attempted. -/
theorem c2_stop_policy (env : Env) (repoDir cmd : String) (rest : List String)
    (acc : ExecResults) :
    (∀ m, env.cmdExec (fullCmd repoDir cmd) (commandTimeout cmd + 30) = OpOutcome.exn m →
      isInstallCmd cmd = true →
        runCommands env repoDir (cmd :: rest) acc =
          ({ exnStepAcc acc cmd m with success := false },
           [(fullCmd repoDir cmd, commandTimeout cmd + 30)], [cmd]))
  ∧ (env.cmdExec (fullCmd repoDir cmd) (commandTimeout cmd + 30) = OpOutcome.timeout →
      (runCommands env repoDir (cmd :: rest) acc).2.2 =
        cmd :: (runCommands env repoDir rest (timeoutStepAcc acc cmd)).2.2)
  ∧ (∀ m, env.cmdExec (fullCmd repoDir cmd) (commandTimeout cmd + 30) = OpOutcome.exn m →
      isInstallCmd cmd = false →
        (runCommands env repoDir (cmd :: rest) acc).2.2 =
          cmd :: (runCommands env repoDir rest (exnStepAcc acc cmd m)).2.2)
  ∧ (∀ out, env.cmdExec (fullCmd repoDir cmd) (commandTimeout cmd + 30) = OpOutcome.ok out →
      (runCommands env repoDir (cmd :: rest) acc).2.2 =
        cmd :: (runCommands env repoDir rest (okStepAcc acc cmd out)).2.2) := by
  refine ⟨?_, ?_, ?_, ?_⟩
  · intro m h hin
    simp only [runCommands]
    rw [h]
    simp [hin]
  · intro h
    simp only [runCommands]
    rw [h]
  · intro m h hin
    simp only [runCommands]
    rw [h]
    simp [hin]
  · intro out h
    simp only [runCommands]
    rw [h]

/-- Environment in which the clone succeeds, any command whose full
invocation mentions `install` hits the guard timeout, and every other
command succeeds. -/
def envC2 : Env :=
  { apiKey := some "key", userId := none, username := some "user"
    connect := Except.ok (), createWs := Except.ok (), createPersonal := Except.ok ()
    startO := .ok "", probeO := .ok "/home", now := 1700000000
    cloneO := .ok "Cloning into repo..."
    cmdExec := fun c _ => if containsSub c "install" then .timeout else .ok "done"
    cleanupExn := none, stopExn := none }

/-- Counterexample for claim C2 as stated: the install-class command
`pip install x` fails (guard timeout, recorded as a failed result), yet
the next command is still attempted and the overall flag stays true. -/
theorem c2_counterexample :
    isInstallCmd "pip install x" = true
  ∧ (∃ o ∈ (execute_in_cloud envC2 "https://github.com/a/b" "p"
        ["pip install x", "echo done"]).1.outputs,
      o.command = "pip install x" ∧ o.success = false)
  ∧ (execute_in_cloud envC2 "https://github.com/a/b" "p"
      ["pip install x", "echo done"]).2.attempted = ["pip install x", "echo done"]
  ∧ (execute_in_cloud envC2 "https://github.com/a/b" "p"
      ["pip install x", "echo done"]).1.success = true := by decide

/-- Environment in which every guarded command raises a non-timeout
exception. -/
def envC2w : Env :=
  { apiKey := some "key", userId := some "42", username := none
    connect := Except.ok (), createWs := Except.ok (), createPersonal := Except.ok ()
    startO := .ok "", probeO := .ok "/home", now := 1700000000
    cloneO := .ok "Cloning into repo..."
    cmdExec := fun _ _ => .exn "No matching distribution found"
    cleanupExn := none, stopExn := none }

/-- Fresh accumulator at pipeline entry. -/
def accW : ExecResults := { success := true, outputs := [], errors := [] }

/-- Witness for claim C2: a concrete install-class non-timeout failure
stops the pipeline with the flag cleared. -/
theorem c2_witness :
    runCommands envC2w "/ws" ["pip install x", "echo hi"] accW =
      ({ exnStepAcc accW "pip install x" "No matching distribution found" with success := false },
       [(fullCmd "/ws" "pip install x", commandTimeout "pip install x" + 30)],
       ["pip install x"]) :=
  (c2_stop_policy envC2w "/ws" "pip install x" ["echo hi"] accW).1
    "No matching distribution found" (by decide) (by decide)

/-- Claim C4: the acquisition cascade is connect, create-in-workspace,
create-personal, first success winning; when all three fail the run
returns the terminal report with the last failure reason, the
remediation text and the recognized configuration keys, and no executed
command results. -/
theorem c4_acquisition_cascade (env : Env) (repoUrl pn : String) (cmds : List String)
    (htA : truthy env.apiKey = true)
    (htU : truthy (pyOrStr env.username env.userId) = true) :
    (env.connect = Except.ok () →
      (execute_in_cloud env repoUrl pn cmds).2.acqSteps = [AcqStep.connect])
  ∧ (∀ e1, env.connect = Except.error e1 → env.createWs = Except.ok () →
      (execute_in_cloud env repoUrl pn cmds).2.acqSteps = [AcqStep.connect, AcqStep.createWs])
  ∧ (∀ e1 e2 e3, env.connect = Except.error e1 → env.createWs = Except.error e2 →
      env.createPersonal = Except.error e3 →
      (execute_in_cloud env repoUrl pn cmds).1 = acquisitionFailureReport e3
      ∧ (execute_in_cloud env repoUrl pn cmds).1.success = false
      ∧ (execute_in_cloud env repoUrl pn cmds).1.outputs = []
      ∧ ("Lightning Studio creation failed: " ++ e3)
          ∈ (execute_in_cloud env repoUrl pn cmds).1.errors
      ∧ "1. Verify your Lightning AI account: https://lightning.ai/"
          ∈ (execute_in_cloud env repoUrl pn cmds).1.errors
      ∧ "2. Get your credentials from Settings > API Keys"
          ∈ (execute_in_cloud env repoUrl pn cmds).1.errors
      ∧ "3. For teamspace, get name from your teamspace URL"
          ∈ (execute_in_cloud env repoUrl pn cmds).1.errors
      ∧ "  LIGHTNING_API_KEY=<your-api-key>"
          ∈ (execute_in_cloud env repoUrl pn cmds).1.errors
      ∧ "  LIGHTNING_USERNAME=<your-username>"
          ∈ (execute_in_cloud env repoUrl pn cmds).1.errors
      ∧ "  LIGHTNING_TEAMSPACE=<teamspace-name> (optional)"
          ∈ (execute_in_cloud env repoUrl pn cmds).1.errors) := by
  refine ⟨?_, ?_, ?_⟩
  · intro h
    simp only [execute_in_cloud, htA, htU, h]
    simp [afterAcquire_acqSteps]
  · intro e1 h1 h2
    simp only [execute_in_cloud, htA, htU, h1, h2]
    simp [afterAcquire_acqSteps]
  · intro e1 e2 e3 h1 h2 h3
    simp only [execute_in_cloud, htA, htU, h1, h2, h3]
    simp [acquisitionFailureReport]

/-- Environment whose connect strategy succeeds immediately. -/
def envC4a : Env :=
  { apiKey := some "key", userId := none, username := some "user"
    connect := Except.ok (), createWs := Except.error "unused", createPersonal := Except.error "unused"
    startO := .ok "", probeO := .ok "/home", now := 1700000000
    cloneO := .ok "", cmdExec := fun _ _ => .ok ""
    cleanupExn := none, stopExn := none }

/-- Environment in which every acquisition strategy fails. -/
def envC4b : Env :=
  { apiKey := some "key", userId := none, username := some "user"
    connect := Except.error "studio not found"
    createWs := Except.error "permission denied"
    createPersonal := Except.error "quota exceeded"
    startO := .ok "", probeO := .ok "/home", now := 1700000000
    cloneO := .ok "", cmdExec := fun _ _ => .ok ""
    cleanupExn := none, stopExn := none }

/-- Witness for claim C4 at two concrete environments: connect
short-circuits the cascade, and an all-fail cascade returns the terminal
acquisition report carrying the last failure reason. -/
theorem c4_witness :
    (execute_in_cloud envC4a "u" "p" []).2.acqSteps = [AcqStep.connect]
  ∧ (execute_in_cloud envC4b "u" "p" []).1 = acquisitionFailureReport "quota exceeded" :=
  ⟨(c4_acquisition_cascade envC4a "u" "p" [] (by decide) (by decide)).1 rfl,
   ((c4_acquisition_cascade envC4b "u" "p" [] (by decide) (by decide)).2.2
      "studio not found" "permission denied" "quota exceeded" rfl rfl rfl).1⟩

/-- Claim C7 (amended): a probe timeout returns the unresponsive-studio
terminal report directly, and any other probe exception also returns a
terminal report directly (`Studio not responsive: ...`) without reaching
teardown or the fallback path. -/
theorem c7_probe_failures (env : Env) (repoUrl pn : String) (cmds : List String)
    (htA : truthy env.apiKey = true)
    (htU : truthy (pyOrStr env.username env.userId) = true)
    (hconn : env.connect = Except.ok ()) :
    (env.probeO = OpOutcome.timeout →
      (execute_in_cloud env repoUrl pn cmds).1 =
        { success := false, outputs := []
          errors := ["Studio is not responsive (timeout)",
                     "Try again or check Lightning AI dashboard"] }
      ∧ (execute_in_cloud env repoUrl pn cmds).2.teardownAttempted = false)
  ∧ (∀ m, env.probeO = OpOutcome.exn m →
      (execute_in_cloud env repoUrl pn cmds).1 =
        { success := false, outputs := [], errors := ["Studio not responsive: " ++ m] }
      ∧ (execute_in_cloud env repoUrl pn cmds).2.teardownAttempted = false) := by
  constructor
  · intro h
    simp only [execute_in_cloud, htA, htU, hconn, afterAcquire, h]
    simp [noTeardownTrace]
  · intro m h
    simp only [execute_in_cloud, htA, htU, hconn, afterAcquire, h]
    simp [noTeardownTrace]

/-- Environment whose responsiveness probe raises a non-timeout
exception. -/
def envC7 : Env :=
  { apiKey := some "key", userId := none, username := some "user"
    connect := Except.ok (), createWs := Except.ok (), createPersonal := Except.ok ()
    startO := .ok "", probeO := .exn "boom", now := 1700000000
    cloneO := .ok "", cmdExec := fun _ _ => .ok ""
    cleanupExn := none, stopExn := none }

/-- Counterexample for claim C7 as stated: a non-timeout probe exception
is returned directly as a terminal report (no command attempted, no
teardown, no fallback artifacts), not propagated toward the fallback
path. -/
theorem c7_counterexample :
    (execute_in_cloud envC7 "https://github.com/a/b" "p" ["echo hi"]).1 =
      { success := false, outputs := [], errors := ["Studio not responsive: boom"] }
  ∧ (execute_in_cloud envC7 "https://github.com/a/b" "p" ["echo hi"]).2.attempted = []
  ∧ (execute_in_cloud envC7 "https://github.com/a/b" "p"
      ["echo hi"]).2.teardownAttempted = false := by decide

/-- Witness for claim C7 at a concrete environment. -/
theorem c7_witness :
    (execute_in_cloud envC7 "u" "p" []).1 =
      { success := false, outputs := [], errors := ["Studio not responsive: boom"] } :=
  ((c7_probe_failures envC7 "u" "p" [] (by decide) (by decide) rfl).2 "boom" rfl).1

/-- Claim C1 (amended): in the two-command run where the install succeeds
and the test fails with a non-timeout error, the report records the clone
result and one result per command, the error list carries the
test-failure message, teardown is still attempted — and the overall
success flag remains TRUE, because a non-install failure never clears
it. -/
theorem c1_scenario (env : Env) (repoUrl pn probeOut cloneOut out1 m : String)
    (htA : truthy env.apiKey = true)
    (htU : truthy (pyOrStr env.username env.userId) = true)
    (hconn : env.connect = Except.ok ())
    (hprobe : env.probeO = OpOutcome.ok probeOut)
    (hclone : env.cloneO = OpOutcome.ok cloneOut)
    (h1 : env.cmdExec (fullCmd (repoDirOf env) "pip install x")
            (commandTimeout "pip install x" + 30) = OpOutcome.ok out1)
    (h2 : env.cmdExec (fullCmd (repoDirOf env) "pytest")
            (commandTimeout "pytest" + 30) = OpOutcome.exn m) :
    (execute_in_cloud env repoUrl pn ["pip install x", "pytest"]).1.outputs =
      [cloneRecord repoUrl cloneOut, okRecord "pip install x" out1, exnRecord "pytest" m]
  ∧ (execute_in_cloud env repoUrl pn ["pip install x", "pytest"]).1.success = true
  ∧ (execute_in_cloud env repoUrl pn ["pip install x", "pytest"]).1.errors =
      [exnErrorMsg "pytest" m]
  ∧ (execute_in_cloud env repoUrl pn ["pip install x", "pytest"]).2.teardownAttempted = true := by
  have hpy : isInstallCmd "pytest" = false := by decide
  simp only [execute_in_cloud, htA, htU, hconn, afterAcquire, hprobe, hclone, runCommands]
  rw [h1]
  simp only [runCommands]
  rw [h2]
  simp [hpy, okStepAcc, exnStepAcc, promote]

/-- Environment realizing the C1 scenario: clone succeeds, the install
command succeeds, `pytest` raises a non-timeout error. -/
def envC1 : Env :=
  { apiKey := some "key", userId := none, username := some "user"
    connect := Except.ok (), createWs := Except.ok (), createPersonal := Except.ok ()
    startO := .ok "", probeO := .ok "/home", now := 1700000000
    cloneO := .ok "Cloning into repo..."
    cmdExec := fun c _ =>
      if containsSub c "pytest" then .exn "pytest run failed" else .ok "install ok"
    cleanupExn := none, stopExn := none }

/-- Counterexample for claim C1 as stated: in the very scenario the claim
describes (install succeeded, test failed with a non-timeout error, both
results recorded), the overall success flag is TRUE, not false. -/
theorem c1_counterexample :
    (∃ o ∈ (execute_in_cloud envC1 "https://github.com/a/b" "proj"
        ["pip install x", "pytest"]).1.outputs, o.command = "pip install x" ∧ o.success = true)
  ∧ (∃ o ∈ (execute_in_cloud envC1 "https://github.com/a/b" "proj"
        ["pip install x", "pytest"]).1.outputs, o.command = "pytest" ∧ o.success = false)
  ∧ ("Command 'pytest' failed: " ++ strTake "pytest run failed" 500)
      ∈ (execute_in_cloud envC1 "https://github.com/a/b" "proj"
          ["pip install x", "pytest"]).1.errors
  ∧ (execute_in_cloud envC1 "https://github.com/a/b" "proj"
      ["pip install x", "pytest"]).1.success = true := by decide

/-- Witness for claim C1 at the concrete environment `envC1`. -/
theorem c1_witness :
    (execute_in_cloud envC1 "https://github.com/a/b" "proj"
      ["pip install x", "pytest"]).1.success = true
  ∧ (execute_in_cloud envC1 "https://github.com/a/b" "proj"
      ["pip install x", "pytest"]).2.teardownAttempted = true :=
  ⟨(c1_scenario envC1 "https://github.com/a/b" "proj" "/home" "Cloning into repo..."
      "install ok" "pytest run failed" (by decide) (by decide) rfl rfl rfl
      (by decide) (by decide)).2.1,
   (c1_scenario envC1 "https://github.com/a/b" "proj" "/home" "Cloning into repo..."
      "install ok" "pytest run failed" (by decide) (by decide) rfl rfl rfl
      (by decide) (by decide)).2.2.2⟩

/-! ## Output-size bounds (claim C9) -/

/-- Python slicing `s[:n]` yields at most `n` code points. -/
theorem strTake_length_le (s : String) (n : Nat) : (strTake s n).length ≤ n := by
  simp only [strTake, String.length, List.length_take]
  exact Nat.min_le_left _ _

/-- The chosen per-command budget is one of the three documented values. -/
theorem commandTimeout_cases (cmd : String) :
    commandTimeout cmd = 600 ∨ commandTimeout cmd = 300 ∨ commandTimeout cmd = 180 := by
  unfold commandTimeout
  split_ifs <;> simp

/-- The bound claimed for every primary-path record. -/
def boundedRecord (o : CommandResult) : Prop :=
  o.stdout.length ≤ 5000 ∧ o.stderr.length ≤ 2000

/-- Success records are size-bounded. -/
theorem okRecord_bounded (cmd out : String) : boundedRecord (okRecord cmd out) :=
  ⟨strTake_length_le out 5000, by simp [okRecord, String.length]⟩

/-- Timeout records are size-bounded. -/
theorem timeoutRecord_bounded (cmd : String) : boundedRecord (timeoutRecord cmd) := by
  constructor
  · simp [timeoutRecord, String.length]
  · have hs : (timeoutRecord cmd).stderr =
        "Command timed out after " ++ Nat.repr (commandTimeout cmd) ++ "s" := rfl
    rw [hs]
    rcases commandTimeout_cases cmd with h | h | h <;> rw [h] <;> decide

/-- Failure records are size-bounded. -/
theorem exnRecord_bounded (cmd m : String) : boundedRecord (exnRecord cmd m) :=
  ⟨by simp [exnRecord, String.length], strTake_length_le m 2000⟩

/-- The clone record is size-bounded. -/
theorem cloneRecord_bounded (repoUrl out : String) : boundedRecord (cloneRecord repoUrl out) :=
  ⟨le_trans (strTake_length_le out 1000) (by omega), by simp [cloneRecord, String.length]⟩

/-- The pipeline preserves size-boundedness of the recorded outputs. -/
theorem runCommands_outputs_bounded (env : Env) (repoDir : String) (cmds : List String)
    (acc : ExecResults) (hacc : ∀ o ∈ acc.outputs, boundedRecord o) :
    ∀ o ∈ (runCommands env repoDir cmds acc).1.outputs, boundedRecord o := by
  induction cmds generalizing acc with
  | nil => simpa [runCommands] using hacc
  | cons cmd rest ih =>
    simp only [runCommands]
    cases h : env.cmdExec (fullCmd repoDir cmd) (commandTimeout cmd + 30) with
    | ok out =>
      exact ih (okStepAcc acc cmd out)
        (by
          simp only [okStepAcc]
          exact List.forall_mem_append.mpr
            ⟨hacc, by simpa using okRecord_bounded cmd out⟩)
    | timeout =>
      exact ih (timeoutStepAcc acc cmd)
        (by
          simp only [timeoutStepAcc]
          exact List.forall_mem_append.mpr
            ⟨hacc, by simpa using timeoutRecord_bounded cmd⟩)
    | exn m =>
      by_cases hin : isInstallCmd cmd
      · simp only [hin, if_pos]
        simp only [exnStepAcc]
        exact List.forall_mem_append.mpr
          ⟨hacc, by simpa using exnRecord_bounded cmd m⟩
      · simp only [hin]
        simp only [Bool.false_eq_true, if_neg]
        exact ih (exnStepAcc acc cmd m)
          (by
            simp only [exnStepAcc]
            exact List.forall_mem_append.mpr
              ⟨hacc, by simpa using exnRecord_bounded cmd m⟩)

/-- The promotion rule never changes the recorded outputs. -/
theorem promote_outputs (r : ExecResults) : (promote r).outputs = r.outputs := by
  unfold promote
  split_ifs <;> rfl

/-- Every output recorded after a successful acquisition is size-bounded. -/
theorem afterAcquire_outputs_bounded (env : Env) (repoUrl : String) (cmds : List String)
    (steps : List AcqStep) :
    ∀ o ∈ (afterAcquire env repoUrl cmds steps).1.outputs, boundedRecord o := by
  unfold afterAcquire
  cases env.probeO with
  | timeout => simp
  | exn m => simp
  | ok v =>
    cases env.cloneO with
    | timeout => simp
    | exn m => simp
    | ok cloneOut =>
      intro o ho
      simp only [promote_outputs] at ho
      exact runCommands_outputs_bounded env (repoDirOf env) cmds
        { success := true, outputs := [cloneRecord repoUrl cloneOut], errors := [] }
        (by simpa using cloneRecord_bounded repoUrl cloneOut) o ho

/-- Claim C9 (amended): on the primary path every recorded CommandResult
has its stdout capped to 5000 code points (1000 for the clone record) and
its stderr capped to 2000 code points.  The fallback path does NOT
truncate (see the counterexample). -/
theorem c9_primary_truncation (env : Env) (repoUrl pn : String) (cmds : List String) :
    ∀ o ∈ (execute_in_cloud env repoUrl pn cmds).1.outputs,
      o.stdout.length ≤ 5000 ∧ o.stderr.length ≤ 2000 := by
  unfold execute_in_cloud
  split_ifs with h1 h2
  · simp [apiKeyMissingReport, noTeardownTrace]
  · simp [userMissingReport, noTeardownTrace]
  · cases env.connect with
    | ok u => exact afterAcquire_outputs_bounded env repoUrl cmds [AcqStep.connect]
    | error e1 =>
      cases env.createWs with
      | ok u =>
        exact afterAcquire_outputs_bounded env repoUrl cmds
          [AcqStep.connect, AcqStep.createWs]
      | error e2 =>
        cases env.createPersonal with
        | ok u =>
          exact afterAcquire_outputs_bounded env repoUrl cmds
            [AcqStep.connect, AcqStep.createWs, AcqStep.createPersonal]
        | error e3 => simp [acquisitionFailureReport, noTeardownTrace]

/-- Witness for claim C9: the clone record of a concrete run is in the
report and within the caps. -/
theorem c9_witness :
    cloneRecord "https://github.com/a/b" "Cloning into repo..."
      ∈ (execute_in_cloud envC1 "https://github.com/a/b" "proj"
          ["pip install x", "pytest"]).1.outputs
  ∧ (cloneRecord "https://github.com/a/b" "Cloning into repo...").stdout.length ≤ 5000
  ∧ (cloneRecord "https://github.com/a/b" "Cloning into repo...").stderr.length ≤ 2000 :=
  ⟨by decide,
   (c9_primary_truncation envC1 "https://github.com/a/b" "proj"
      ["pip install x", "pytest"] _ (by decide)).1,
   (c9_primary_truncation envC1 "https://github.com/a/b" "proj"
      ["pip install x", "pytest"] _ (by decide)).2⟩

/-- A 6000-code-point output, exceeding every documented cap. -/
def bigOut : String := String.mk (List.replicate 6000 'a')

/-- CLI environment whose combined script succeeds with a huge stdout. -/
def cliC9 : CliEnv :=
  { versionCheck := .ok 0 "0.9.0" "", writeExn := none
    scriptRun := .ok 0 bigOut "", removeExn := none }

/-- Counterexample for claim C9 as stated: on the fallback path the
aggregate record stores the CLI's stdout untruncated — 6000 code points,
beyond the 5000-point cap of the primary path. -/
theorem c9_counterexample :
    (execute_via_cli "u" "p" ["cmd"] cliC9).outputs =
      [{ command := "all_commands", stdout := bigOut, stderr := ""
         exitCode := 0, success := true }]
  ∧ bigOut.length = 6000
  ∧ 5000 < bigOut.length := by
  refine ⟨rfl, ?_, ?_⟩
  · rw [show bigOut.length = (List.replicate 6000 'a').length from rfl,
        List.length_replicate]
  · rw [show bigOut.length = (List.replicate 6000 'a').length from rfl,
        List.length_replicate]
    decide

/-! ## The fallback replacement rule (claim C10) -/

/-- String append acts as list append on the underlying code points. -/
theorem strData_append (s t : String) : (s ++ t).data = s.data ++ t.data := rfl

/-- If the CLI fallback reports success, its report is exactly one
aggregate `all_commands` record with no error strings. -/
theorem execute_via_cli_success_shape (ru pn : String) (cs : List String) (cli : CliEnv)
    (h : (execute_via_cli ru pn cs cli).success = true) :
    ∃ out err, execute_via_cli ru pn cs cli =
      { success := true
        outputs := [{ command := "all_commands", stdout := out, stderr := err
                      exitCode := 0, success := true }]
        errors := [] } := by
  cases hv : cli.versionCheck with
  | timeoutExpired => simp [execute_via_cli, hv] at h
  | exn m => simp [execute_via_cli, hv] at h
  | ok rc so se =>
    by_cases hrc : (rc != 0) = true
    · simp [execute_via_cli, hv, hrc] at h
    · simp only [Bool.not_eq_true] at hrc
      cases hw : cli.writeExn with
      | some m => simp [execute_via_cli, hv, hrc, hw] at h
      | none =>
        cases hs : cli.scriptRun with
        | timeoutExpired => simp [execute_via_cli, hv, hrc, hw, hs] at h
        | exn m => simp [execute_via_cli, hv, hrc, hw, hs] at h
        | ok rc2 out err =>
          cases hr : cli.removeExn with
          | some m => simp [execute_via_cli, hv, hrc, hw, hs, hr] at h
          | none =>
            by_cases h2 : rc2 = 0
            · refine ⟨out, err, ?_⟩
              simp [execute_via_cli, hv, hrc, hw, hs, hr, h2]
            · simp [execute_via_cli, hv, hrc, hw, hs, hr, h2] at h

/-- Claim C10: when an unrecoverable error escapes the primary path and
the CLI fallback succeeds, the fallback's report replaces the primary
one: it holds exactly one aggregate `all_commands` record and no error
strings, so no primary-path record (in particular no clone record) and no
primary-path error string appears in it. -/
theorem c10_fallback_replacement (primary : ExecResults) (errMsg : String)
    (v : Option String) (ru pn : String) (cs : List String) (cli : CliEnv)
    (hflag : fallbackEnabled v = true)
    (hcli : (execute_via_cli ru pn cs cli).success = true) :
    sdkFailureFallback primary errMsg v ru pn cs cli = execute_via_cli ru pn cs cli
  ∧ (∃ rec, (execute_via_cli ru pn cs cli).outputs = [rec] ∧ rec.command = "all_commands")
  ∧ (execute_via_cli ru pn cs cli).errors = []
  ∧ (∀ e ∈ primary.errors, e ∉ (execute_via_cli ru pn cs cli).errors)
  ∧ (∀ o ∈ primary.outputs, o.command ≠ "all_commands" →
      o ∉ (execute_via_cli ru pn cs cli).outputs)
  ∧ (∀ url out, cloneRecord url out ∉ (execute_via_cli ru pn cs cli).outputs) := by
  obtain ⟨out, err, hshape⟩ := execute_via_cli_success_shape ru pn cs cli hcli
  refine ⟨?_, ?_, ?_, ?_, ?_, ?_⟩
  · simp only [sdkFailureFallback, hflag, if_pos, hcli, if_true]
  · rw [hshape]
    exact ⟨_, rfl, rfl⟩
  · rw [hshape]
  · intro e _
    rw [hshape]
    simp
  · intro o _ hne
    rw [hshape]
    intro hmem
    simp only [List.mem_singleton] at hmem
    exact hne (by rw [hmem])
  · intro url out2
    rw [hshape]
    intro hmem
    simp only [List.mem_singleton] at hmem
    have hcmd : "git clone " ++ url = "all_commands" :=
      congrArg CommandResult.command hmem
    have hd := congrArg String.data hcmd
    rw [strData_append] at hd
    rw [show ("git clone ").data = ['g', 'i', 't', ' ', 'c', 'l', 'o', 'n', 'e', ' '] from rfl,
        show ("all_commands").data =
          ['a', 'l', 'l', '_', 'c', 'o', 'm', 'm', 'a', 'n', 'd', 's'] from rfl] at hd
    simp at hd

/-- CLI environment for the C10 witness: the fallback run succeeds. -/
def cliC10 : CliEnv :=
  { versionCheck := .ok 0 "0.9.0" "", writeExn := none
    scriptRun := .ok 0 "combined output" "", removeExn := none }

/-- A primary report as left behind by an escaped SDK failure. -/
def primaryC10 : ExecResults :=
  { success := false
    outputs := [cloneRecord "https://github.com/a/b" "Cloning into repo..."]
    errors := ["Lightning SDK execution failed: boom"] }

/-- Witness for claim C10 at concrete inputs. -/
theorem c10_witness :
    fallbackEnabled (some "true") = true
  ∧ (execute_via_cli "u" "p" ["cmd"] cliC10).success = true
  ∧ sdkFailureFallback primaryC10 "boom" (some "true") "u" "p" ["cmd"] cliC10 =
      execute_via_cli "u" "p" ["cmd"] cliC10 :=
  ⟨by decide, by decide,
   (c10_fallback_replacement primaryC10 "boom" (some "true") "u" "p" ["cmd"] cliC10
      (by decide) (by decide)).1⟩

end LightningExec
